import Mathlib

/-!
Verification of the family-budget-manager repository.

Shallow embedding of the Python sources:
  * `src/config/categories.py`  — fixed category taxonomy and helpers
  * `src/config/database.py`    — sqlite schema, modelled as a `DB` state record
  * `src/utils/auth.py`         — password hashing/verification, register/login
  * `src/utils/data_export.py`  — backup creation/export and restore

The modules `models/expense.py`, `models/income.py`, `models/budget.py` are not
part of the available sources (only their callers are); where a claim depends on
them they are modelled from the specification, and each such definition carries
a doc comment starting `Modelled from the spec:`.

Python dictionaries keyed by strings are modelled as association lists in
insertion order; sqlite tables as lists of row records; monetary amounts as
rationals; timestamps/dates as explicit parameters or plain record fields.
Python exceptions are modelled with `Except`: primitives that can raise return
`Except PyErr _`, and the translated `try/except` blocks of the source appear
as `match` on that result.
-/

namespace FamilyBudget

/-! ## config/categories.py -/

/-- `BUDGET_CATEGORIES` from src/config/categories.py: the fixed mapping from
category name to subcategory list, kept in dict insertion order. -/
def BUDGET_CATEGORIES : List (String × List String) :=
  [ ("Children",
      ["Childcare", "Medical & Consultations", "School Supplies & Toys",
       "School Tuition", "Children\x27s Food", "Children\x27s Entertainment"]),
    ("Entertainment",
      ["Concerts", "Theatre & Opera", "Cinema", "Music (CDs, Downloads, etc.)",
       "Sports Events", "Video/DVD (Purchase)", "Video/DVD (Rental)", "Books"]),
    ("Food",
      ["Dining Out & Catering", "Groceries", "Fruits & Vegetables",
       "Meat & Deli", "Fish & Seafood"]),
    ("Gifts and Charity",
      ["Religious Donations", "Gifts", "Gift 1", "Gift 2"]),
    ("Housing",
      ["Cable/Satellite", "Electricity", "Gas", "House Cleaning",
       "Home Maintenance & Repairs", "Utilities", "Natural Gas/Oil",
       "Internet Service", "Mobile Phone", "Landline Phone",
       "Other Housing Expenses", "Waste Removal & Recycling",
       "Water & Bottled Water"]),
    ("Insurance",
      ["Health Insurance", "Home Insurance", "Life Insurance"]),
    ("Loans",
      ["Personal Loan", "Overdraft", "Credit Card", "Personal Debt",
       "Student Loan"]),
    ("Personal Care",
      ["Clothing", "Hygiene Products", "Hair Salon & Manicure",
       "Fitness & Beauty Salon", "Medical & Consultations"]),
    ("Pets",
      ["Pet Food", "Grooming", "Veterinary & Medicine", "Pet Toys"]),
    ("Savings or Investments",
      ["Investments", "Retirement Account"]),
    ("Taxes",
      ["Federal Taxes", "Local Taxes", "State Taxes"]),
    ("Transportation",
      ["Public Transport & Taxi", "Fuel/Gasoline", "Car Insurance",
       "License & Registration", "Car Maintenance", "Parking",
       "Vehicle Taxes"]) ]

/-- `CATEGORY_COLORS` from src/config/categories.py. -/
def CATEGORY_COLORS : List (String × String) :=
  [ ("Children", "#FF6B6B"), ("Entertainment", "#4ECDC4"), ("Food", "#45B7D1"),
    ("Gifts and Charity", "#FFA07A"), ("Housing", "#98D8C8"),
    ("Insurance", "#6C5CE7"), ("Loans", "#FDCB6E"),
    ("Personal Care", "#FF7675"), ("Pets", "#74B9FF"),
    ("Savings or Investments", "#55EFC4"), ("Taxes", "#A29BFE"),
    ("Transportation", "#FD79A8") ]

/-- `CATEGORY_ICONS` from src/config/categories.py (emoji values). -/
def CATEGORY_ICONS : List (String × String) :=
  [ ("Children", "👶"), ("Entertainment", "🎭"), ("Food", "🍕"),
    ("Gifts and Charity", "🎁"), ("Housing", "🏠"), ("Insurance", "🛡️"),
    ("Loans", "💳"), ("Personal Care", "💄"), ("Pets", "🐾"),
    ("Savings or Investments", "💰"), ("Taxes", "📊"),
    ("Transportation", "🚗") ]

/-- `INCOME_CATEGORIES` from src/config/categories.py. -/
def INCOME_CATEGORIES : List String :=
  [ "💼 Salary", "🎁 Bonus", "🏢 Freelance/Business", "🏠 Rental Income",
    "📈 Investments", "🎉 Gifts & Inheritance", "💰 Other Income" ]

/-- `get_all_categories()`: `list(BUDGET_CATEGORIES.keys())`. -/
def get_all_categories : List String := BUDGET_CATEGORIES.map Prod.fst

/-- `get_subcategories(category)`: `BUDGET_CATEGORIES.get(category, [])`. -/
def get_subcategories (category : String) : List String :=
  ((BUDGET_CATEGORIES.find? (fun kv => kv.1 = category)).map Prod.snd).getD []

/-- `get_income_categories()`. -/
def get_income_categories : List String := INCOME_CATEGORIES

/-- Dictionary lookup `d[k]`/`d.get(k)` on an insertion-ordered assoc list. -/
def dictGet (d : List (String × String)) (k : String) : Option String :=
  (d.find? (fun kv => kv.1 = k)).map Prod.snd

/-- A (category, subcategory) pair is inside the fixed taxonomy: the category
is a key of `BUDGET_CATEGORIES` and the subcategory is in its list. -/
def validPair (category subcategory : String) : Bool :=
  match BUDGET_CATEGORIES.find? (fun kv => kv.1 = category) with
  | none => false
  | some kv => subcategory ∈ kv.2

/-! ## utils/auth.py — password hashing

`hashlib.sha256(...).hexdigest()` is a foreign library primitive; it is
modelled by an executable stand-in that shares the two properties the
source relies on: it is a deterministic function of its input string, and
its output consists only of lowercase hex digit characters (in particular it
never contains `:`). -/

/-- Hex digit character for `n < 16` (0-9 then a-f), as produced by
`hexdigest`. -/
def hexDigitChar (n : Nat) : Char :=
  if n < 10 then Char.ofNat (48 + n) else Char.ofNat (87 + n)

/-- Hex rendering with a structural fuel argument (so that terms reduce
definitionally); `fuel` bounds the number of digits produced. -/
def hexRepAux : Nat → Nat → List Char
  | 0, _ => []
  | fuel + 1, n =>
    if n < 16 then [hexDigitChar n]
    else hexRepAux fuel (n / 16) ++ [hexDigitChar (n % 16)]

/-- Hex rendering of a natural number (most significant digit first). -/
def hexRep (n : Nat) : List Char := hexRepAux (n + 1) n

/-- Stand-in for `hashlib.sha256(s.encode()).hexdigest()`: a deterministic
string-to-hex-string function.  Only determinism and the hex-digit-only
output alphabet are used in the development. -/
def sha256hex (s : String) : String :=
  ⟨hexRep (s.data.foldl (fun a c => (a * 131 + c.toNat) % (2 ^ 64)) 5381)⟩

/-- `hash_password(password, salt)` from src/utils/auth.py with the salt
supplied (the `salt is None` branch draws fresh randomness from
`secrets.token_hex(16)`; callers of this model pass that salt explicitly).
Returns `(password_hash, salt)` for `sha256(password + salt)`. -/
def hash_password (password salt : String) : String × String :=
  (sha256hex (password ++ salt), salt)

/-- Python single-character `str.split(sep)` on a character list: splits at
every separator occurrence and keeps empty pieces, so the result always has
`(number of separators) + 1` pieces. -/
def splitChar (sep : Char) : List Char → List (List Char)
  | [] => [[]]
  | c :: rest =>
    let r := splitChar sep rest
    if c = sep then [] :: r
    else
      match r with
      | [] => [[c]]
      | hd :: tl => (c :: hd) :: tl

/-- Python `s.split(sep)` for a one-character separator, on strings. -/
def pySplit (sep : Char) (s : String) : List String :=
  (splitChar sep s.data).map (fun cs => ⟨cs⟩)

/-- `verify_password(password, stored_hash)` from src/utils/auth.py.
`salt, hash_value = stored_hash.split(':')` succeeds exactly when the split
has two pieces; any other shape raises `ValueError`, which the bare
`except` turns into `False`. -/
def verify_password (password stored_hash : String) : Bool :=
  match pySplit ':' stored_hash with
  | [salt, hash_value] => (hash_password password salt).1 == hash_value
  | _ => false

/-! ## config/database.py — schema as a state record

`init_database` creates the tables `users`, `budget_plans`, `expenses`,
`income`, `user_preferences`, `ai_predictions`.  Each table is a list of row
records; `AUTOINCREMENT` ids are modelled with per-table counters.  Dates are
`(year, month, day)` triples; timestamps are opaque `Nat` ticks supplied by
callers for `datetime.now()`. -/

/-- A calendar date, as stored in the `expense_date` / `income_date` columns. -/
structure PyDate where
  year : Int
  month : Int
  day : Int
deriving DecidableEq, Repr

/-- Row of the `users` table. -/
structure UserRow where
  id : Nat
  username : String
  password_hash : String
  email : Option String
  created_at : Nat
  last_login : Option Nat
deriving DecidableEq, Repr

/-- Row of the `budget_plans` table. -/
structure BudgetPlanRow where
  id : Nat
  user_id : Nat
  category : String
  subcategory : String
  planned_amount : ℚ
  month : Int
  year : Int
deriving DecidableEq, Repr

/-- Row of the `expenses` table. -/
structure ExpenseRow where
  id : Nat
  user_id : Nat
  category : String
  subcategory : String
  amount : ℚ
  description : String
  expense_date : PyDate
  tags : String
deriving DecidableEq, Repr

/-- Row of the `income` table. -/
structure IncomeRow where
  id : Nat
  user_id : Nat
  source : String
  amount : ℚ
  income_date : PyDate
  description : String
deriving DecidableEq, Repr

/-- Row of the `user_preferences` table, with the schema defaults. -/
structure PrefRow where
  id : Nat
  user_id : Nat
  currency : String := "USD"
  language : String := "en"
  theme : String := "light"
  notifications : Bool := true
deriving DecidableEq, Repr

/-- The database state: one list per table plus `AUTOINCREMENT` counters. -/
structure DB where
  users : List UserRow
  budget_plans : List BudgetPlanRow
  expenses : List ExpenseRow
  income : List IncomeRow
  user_preferences : List PrefRow
  nextUserId : Nat
  nextPlanId : Nat
  nextExpenseId : Nat
  nextIncomeId : Nat
  nextPrefId : Nat
deriving Repr

/-- `init_database()` from src/config/database.py: all tables created and
empty, autoincrement counters at 1. -/
def init_database : DB :=
  { users := [], budget_plans := [], expenses := [], income := [],
    user_preferences := [], nextUserId := 1, nextPlanId := 1,
    nextExpenseId := 1, nextIncomeId := 1, nextPrefId := 1 }

/-- The sqlite `UNIQUE(user_id, category, subcategory, month, year)` key of a
`budget_plans` row. -/
def planKey (r : BudgetPlanRow) : Nat × String × String × Int × Int :=
  (r.user_id, r.category, r.subcategory, r.month, r.year)

/-- Python exceptions that the modelled primitives can raise. -/
inductive PyErr where
  /-- `sqlite3.IntegrityError` from a violated `UNIQUE` constraint; the field
  names the constrained column set as it appears in `str(e)`. -/
  | uniqueViolation (constraint : String)
  /-- `TypeError`, e.g. from `dict(None)`. -/
  | typeError (msg : String)
deriving DecidableEq, Repr

/-- `str(e)` for a modelled exception. -/
def PyErr.message : PyErr → String
  | .uniqueViolation c => "UNIQUE constraint failed: " ++ c
  | .typeError m => m

/-- The Python test `"UNIQUE constraint failed" in str(e)`: in this model the
only exceptions whose text contains that phrase are `uniqueViolation`s. -/
def PyErr.mentionsUniqueConstraint : PyErr → Bool
  | .uniqueViolation _ => true
  | .typeError _ => false

/-- `INSERT INTO users (username, password_hash, email, created_at)`:
raises `IntegrityError` when the `UNIQUE` column `username` is already
present, otherwise appends the row and returns `cursor.lastrowid`. -/
def insertUser (db : DB) (username password_hash : String)
    (email : Option String) (now : Nat) : Except PyErr (Nat × DB) :=
  if db.users.any (fun u => u.username = username) then
    .error (.uniqueViolation "users.username")
  else
    let row : UserRow :=
      { id := db.nextUserId, username := username,
        password_hash := password_hash, email := email, created_at := now,
        last_login := none }
    .ok (db.nextUserId,
         { db with users := db.users ++ [row], nextUserId := db.nextUserId + 1 })

/-- `INSERT INTO user_preferences (user_id) VALUES (?)`: raises on the
`UNIQUE(user_id)` constraint, otherwise appends a defaults row. -/
def insertPref (db : DB) (user_id : Nat) : Except PyErr DB :=
  if db.user_preferences.any (fun p => p.user_id = user_id) then
    .error (.uniqueViolation "user_preferences.user_id")
  else
    .ok { db with
          user_preferences :=
            db.user_preferences ++ [{ id := db.nextPrefId, user_id := user_id }],
          nextPrefId := db.nextPrefId + 1 }

/-! ## utils/auth.py — register / login -/

/-- The dictionary returned by `register_user` / `login_user`: always a
`success` bool and a `message` string, optionally `user_id` and `username`. -/
structure AuthResult where
  success : Bool
  message : String
  user_id : Option Nat := none
  username : Option String := none
deriving DecidableEq, Repr

/-- The `except Exception` handler of `register_user` (src/utils/auth.py,
lines 79-83): the connection is closed without commit, so the returned state
is the one at entry. -/
def registerErrorResult (e : PyErr) (db : DB) : AuthResult × DB :=
  if e.mentionsUniqueConstraint then
    ({ success := false, message := "Username already exists" }, db)
  else
    ({ success := false,
       message := "Error creating account: " ++ e.message }, db)

/-- `register_user(username, password, email)` from src/utils/auth.py.
The fresh salt that `secrets.token_hex(16)` draws and the `datetime.now()`
timestamp are passed as the explicit parameters `salt` and `now`.
Python evaluates `not username or len(username) < 3` (resp. the password
check); an empty string is also shorter than the bound, so both collapse to
the length test.  The two `INSERT`s of the `try` block share the one
exception handler. -/
def register_user (salt : String) (username password : String)
    (email : Option String) (now : Nat) (db : DB) : AuthResult × DB :=
  if username.length < 3 then
    ({ success := false,
       message := "Username must be at least 3 characters long" }, db)
  else if password.length < 6 then
    ({ success := false,
       message := "Password must be at least 6 characters long" }, db)
  else
    let stored_hash := salt ++ ":" ++ (hash_password password salt).1
    match insertUser db username stored_hash email now with
    | .error e => registerErrorResult e db
    | .ok (user_id, db1) =>
        match insertPref db1 user_id with
        | .error e => registerErrorResult e db
        | .ok db2 =>
            ({ success := true, message := "Account created successfully!",
               user_id := some user_id }, db2)

/-- `UPDATE users SET last_login = ? WHERE id = ?`. -/
def updateLastLogin (db : DB) (id : Nat) (now : Nat) : DB :=
  { db with
    users := db.users.map (fun u =>
      if u.id = id then { u with last_login := some now } else u) }

/-- `login_user(username, password)` from src/utils/auth.py; `now` stands for
`datetime.now()`.  The `SELECT ... WHERE username = ?` with `fetchone()` is
the first matching row. -/
def login_user (username password : String) (now : Nat) (db : DB) :
    AuthResult × DB :=
  match db.users.find? (fun u => u.username = username) with
  | none =>
      ({ success := false, message := "Invalid username or password" }, db)
  | some user =>
      if verify_password password user.password_hash then
        ({ success := true, message := "Login successful!",
           user_id := some user.id, username := some user.username },
         updateLastLogin db user.id now)
      else
        ({ success := false, message := "Invalid username or password" }, db)

/-! ## models/ — spec-modelled record-store operations

`models/expense.py`, `models/income.py` and `models/budget.py` are not under
the available sources; src/utils/data_export.py and src/app.py only import
them.  They are modelled from the spec below. -/

/-- The structured `{"success": bool, "message": str}` result the spec
requires of core operations. -/
structure PyResult where
  success : Bool
  message : String
deriving DecidableEq, Repr

/-- Modelled from the spec: `models.expense.add_expense` is not under src/
(only its callers are).  Spec: expenses require a subcategory drawn from the
fixed taxonomy for their category and `amount>0`; the system "rejects or
ignores records violating this", and operations return a structured
success/message result.  A valid record is appended to the `expenses`
table. -/
def add_expense (user_id : Nat) (category subcategory : String) (amount : ℚ)
    (d : PyDate) (description tags : String) (db : DB) : PyResult × DB :=
  if ¬ validPair category subcategory then
    ({ success := false, message := "Invalid category or subcategory" }, db)
  else if amount ≤ 0 then
    ({ success := false, message := "Amount must be positive" }, db)
  else
    let row : ExpenseRow :=
      { id := db.nextExpenseId, user_id := user_id, category := category,
        subcategory := subcategory, amount := amount,
        description := description, expense_date := d, tags := tags }
    ({ success := true, message := "Expense added" },
     { db with expenses := db.expenses ++ [row],
               nextExpenseId := db.nextExpenseId + 1 })

/-- Modelled from the spec: `models.income.add_income` is not under src/.
Spec: income transactions use a flat source label and `amount>0`; a valid
record is appended to the `income` table. -/
def add_income (user_id : Nat) (source : String) (amount : ℚ) (d : PyDate)
    (description : String) (db : DB) : PyResult × DB :=
  if amount ≤ 0 then
    ({ success := false, message := "Amount must be positive" }, db)
  else
    let row : IncomeRow :=
      { id := db.nextIncomeId, user_id := user_id, source := source,
        amount := amount, income_date := d, description := description }
    ({ success := true, message := "Income added" },
     { db with income := db.income ++ [row],
               nextIncomeId := db.nextIncomeId + 1 })

/-- Modelled from the spec: `models.budget.set_budget` is not under src/.
Spec: a BudgetPlan entry has `planned_amount≥0`, `month∈[1,12]`, a
(category, subcategory) pair validated against the taxonomy, and is unique
per (user, category, subcategory, month, year); the storage layer performs
"unique-constraint upserts on budget-plan keys".  An upsert removes any row
with the same key and appends the new one. -/
def set_budget (user_id : Nat) (category subcategory : String)
    (planned_amount : ℚ) (month year : Int) (db : DB) : PyResult × DB :=
  if ¬ validPair category subcategory then
    ({ success := false, message := "Invalid category or subcategory" }, db)
  else if planned_amount < 0 ∨ month < 1 ∨ 12 < month then
    ({ success := false, message := "Invalid budget entry" }, db)
  else
    let row : BudgetPlanRow :=
      { id := db.nextPlanId, user_id := user_id, category := category,
        subcategory := subcategory, planned_amount := planned_amount,
        month := month, year := year }
    ({ success := true, message := "Budget saved" },
     { db with
       budget_plans :=
         db.budget_plans.filter (fun r => planKey r ≠ planKey row) ++ [row],
       nextPlanId := db.nextPlanId + 1 })

/-- The `{income, expenses, balance, savings_rate}` record of
`fetch_monthly_balance`. -/
structure BalanceInfo where
  income : ℚ
  expenses : ℚ
  balance : ℚ
  savings_rate : ℚ
deriving DecidableEq, Repr

/-- Modelled from the spec: `models.income.get_monthly_balance` is not under
src/.  Spec: `fetch_monthly_balance(user_id, month, year) ->
{income, expenses, balance, savings_rate}` with Savings Rate
`(income - expenses) / income * 100` for the period; the zero-income case is
a DegenerateStatistics sentinel branch (rate 0), never a division. -/
def get_monthly_balance (user_id : Nat) (month year : Int) (db : DB) :
    BalanceInfo :=
  let inc := (db.income.filter (fun r =>
      r.user_id = user_id ∧ r.income_date.month = month ∧
      r.income_date.year = year)).foldl (fun a r => a + r.amount) 0
  let exp := (db.expenses.filter (fun r =>
      r.user_id = user_id ∧ r.expense_date.month = month ∧
      r.expense_date.year = year)).foldl (fun a r => a + r.amount) 0
  { income := inc, expenses := exp, balance := inc - exp,
    savings_rate := if 0 < inc then (inc - exp) / inc * 100 else 0 }

/-! ## utils/data_export.py — backup and restore -/

/-- The backup dictionary built by `create_full_backup` (the
`backup_date`/`version` metadata strings are carried verbatim). -/
structure BackupData where
  backup_date : String
  version : String
  user_id : Nat
  expenses : List ExpenseRow
  income : List IncomeRow
  budgets : List BudgetPlanRow
  preferences : List (String × String)
deriving DecidableEq, Repr

/-- `dict(row)` for a `user_preferences` row. -/
def prefDict (p : PrefRow) : List (String × String) :=
  [("id", toString p.id), ("user_id", toString p.user_id),
   ("currency", p.currency), ("language", p.language), ("theme", p.theme),
   ("notifications", toString p.notifications)]

/-- `create_full_backup(user_id)` from src/utils/data_export.py, lines
57-103.  The `SELECT` cursors are modelled as the lists of matching rows in
table order, and `fetchone()` pops the head.  Line 89 reads
`dict(cursor.fetchone()) if cursor.fetchone() else {}`: the condition is
evaluated first and consumes one row; when it is truthy the value expression
calls `fetchone()` again on the advanced cursor, so a user with exactly one
preferences row reaches `dict(None)`, a `TypeError`. -/
def create_full_backup (user_id : Nat) (now : String) (db : DB) :
    Except PyErr BackupData :=
  let expenses := db.expenses.filter (fun r => r.user_id = user_id)
  let income := db.income.filter (fun r => r.user_id = user_id)
  let budgets := db.budget_plans.filter (fun r => r.user_id = user_id)
  let prefCursor := db.user_preferences.filter (fun p => p.user_id = user_id)
  match prefCursor with
  | [] =>
      -- first fetchone() is None, falsy: preferences = {}
      .ok { backup_date := now, version := "1.0", user_id := user_id,
            expenses := expenses, income := income, budgets := budgets,
            preferences := [] }
  | _first :: rest =>
      -- first fetchone() consumed `_first` and is truthy;
      -- dict(cursor.fetchone()) then reads from the advanced cursor
      match rest with
      | [] => .error (.typeError
          "cannot convert dictionary update sequence element: dict(None)")
      | second :: _ =>
          .ok { backup_date := now, version := "1.0", user_id := user_id,
                expenses := expenses, income := income, budgets := budgets,
                preferences := prefDict second }

/-- Stand-in for `json.dumps(backup_data, indent=2, default=str)`: some
total serialization of the backup dictionary (its exact text is not relied
upon anywhere). -/
def backupToJson (b : BackupData) : String :=
  "\x7b backup_date: " ++ b.backup_date ++ ", version: " ++
    b.version ++ ", counts: " ++ toString b.expenses.length ++ " " ++
    toString b.income.length ++ " " ++ toString b.budgets.length ++ " \x7d"

/-- `export_backup_json(user_id)` from src/utils/data_export.py, lines
105-110: serializes `create_full_backup`; any exception the latter raises
propagates (there is no `try` here). -/
def export_backup_json (user_id : Nat) (now : String) (db : DB) :
    Except PyErr String :=
  (create_full_backup user_id now db).map backupToJson

/-- One expense entry of a parsed backup JSON: the fields
`restore_from_backup` reads from `backup_data['expenses']` (`description`
and `tags` via `.get(..., '')`).  `float(...)` and
`datetime.fromisoformat(...).date()` are library conversions whose results
are the `amount` and `expense_date` fields here; a record whose conversions
would fail belongs to the `.error` input case of the restore model. -/
structure BackupExpenseEntry where
  category : String
  subcategory : String
  amount : ℚ
  expense_date : PyDate
  description : String := ""
  tags : String := ""
deriving DecidableEq, Repr

/-- One income entry of a parsed backup JSON. -/
structure BackupIncomeEntry where
  source : String
  amount : ℚ
  income_date : PyDate
  description : String := ""
deriving DecidableEq, Repr

/-- One budget entry of a parsed backup JSON. -/
structure BackupBudgetEntry where
  category : String
  subcategory : String
  planned_amount : ℚ
  month : Int
  year : Int
deriving DecidableEq, Repr

/-- The result of `json.loads(backup_json)` followed by the
`backup_data.get(..., [])` reads of `restore_from_backup`. -/
structure ParsedBackup where
  expenses : List BackupExpenseEntry := []
  income : List BackupIncomeEntry := []
  budgets : List BackupBudgetEntry := []
deriving DecidableEq, Repr

/-- The result dictionary of `restore_from_backup`: the `details` counter
dict is present only on the success path. -/
structure RestoreResult where
  success : Bool
  message : String
  details : Option (Nat × Nat × Nat) := none
deriving DecidableEq, Repr

/-- One iteration of the expense-restore loop of `restore_from_backup`:
feed the entry to `add_expense` and bump the `restored['expenses']` counter
when `result['success']` is true. -/
def expenseStep (user_id : Nat) (acc : Nat × DB) (exp : BackupExpenseEntry) :
    Nat × DB :=
  let (result, db') := add_expense user_id exp.category exp.subcategory
      exp.amount exp.expense_date exp.description exp.tags acc.2
  (if result.success then acc.1 + 1 else acc.1, db')

/-- One iteration of the income-restore loop of `restore_from_backup`. -/
def incomeStep (user_id : Nat) (acc : Nat × DB) (inc : BackupIncomeEntry) :
    Nat × DB :=
  let (result, db') := add_income user_id inc.source inc.amount
      inc.income_date inc.description acc.2
  (if result.success then acc.1 + 1 else acc.1, db')

/-- One iteration of the budget-restore loop of `restore_from_backup`. -/
def budgetStep (user_id : Nat) (acc : Nat × DB) (budget : BackupBudgetEntry) :
    Nat × DB :=
  let (result, db') := set_budget user_id budget.category budget.subcategory
      budget.planned_amount budget.month budget.year acc.2
  (if result.success then acc.1 + 1 else acc.1, db')

/-- `restore_from_backup(user_id, backup_json)` from
src/utils/data_export.py, lines 112-172.  The whole body is inside
`try/except`, so a failing `json.loads` (or a missing key / bad conversion,
folded into the same `.error` input case) yields the
`"Error restoring backup: ..."` failure dict.  Otherwise each entry is fed
to `add_expense` / `add_income` / `set_budget` and counted when the returned
`result['success']` is true. -/
def restore_from_backup (user_id : Nat) (parsed : Except String ParsedBackup)
    (db : DB) : RestoreResult × DB :=
  match parsed with
  | .error e =>
      ({ success := false, message := "Error restoring backup: " ++ e }, db)
  | .ok backup =>
      let (nExp, db1) := backup.expenses.foldl (expenseStep user_id) (0, db)
      let (nInc, db2) := backup.income.foldl (incomeStep user_id) (0, db1)
      let (nBud, db3) := backup.budgets.foldl (budgetStep user_id) (0, db2)
      ({ success := true,
         message := "Restored " ++ toString nExp ++ " expenses, " ++
           toString nInc ++ " income entries, " ++ toString nBud ++
           " budgets",
         details := some (nExp, nInc, nBud) }, db3)

/-! ## models/budget.py — budget-vs-actual reconciliation (spec-modelled) -/

/-- Rounding to one fraction digit, the `round(x, 1)` of the spec formula
`percentage == round(actual/planned*100, 1)` (the tie-breaking convention at
exact .05 boundaries is not fixed by the spec and is irrelevant to every
stated property). -/
def roundTo1 (q : ℚ) : ℚ := ((round (q * 10) : ℤ) : ℚ) / 10

/-- A reconciliation row; `percentage` is `none` for the "percentage is
undefined" sentinel of the `planned_amount == 0` case. -/
structure ComparisonRow where
  category : String
  subcategory : String
  planned_amount : ℚ
  actual_amount : ℚ
  difference : ℚ
  percentage : Option ℚ
  status : String
deriving DecidableEq, Repr

/-- Modelled from the spec: the status thresholds applied when a plan
exists — `"Under Budget"` if `percentage < 90`, `"On Track"` if
`90 ≤ percentage ≤ 110`, `"Over Budget"` if `percentage > 110`. -/
def rowStatus (percentage : ℚ) : String :=
  if percentage < 90 then "Under Budget"
  else if percentage ≤ 110 then "On Track"
  else "Over Budget"

/-- Modelled from the spec: one ComparisonRow for a (category, subcategory)
pair.  `difference = actual - planned`; with `planned_amount > 0` the
percentage is `round(actual/planned*100, 1)` and the status follows the
threshold bands; with `planned_amount == 0` the percentage is the `none`
sentinel and the status is `"No Budget Set"`. -/
def mkComparisonRow (category subcategory : String) (planned actual : ℚ) :
    ComparisonRow :=
  if 0 < planned then
    let pct := roundTo1 (actual / planned * 100)
    { category := category, subcategory := subcategory,
      planned_amount := planned, actual_amount := actual,
      difference := actual - planned, percentage := some pct,
      status := rowStatus pct }
  else
    { category := category, subcategory := subcategory,
      planned_amount := planned, actual_amount := actual,
      difference := actual - planned, percentage := none,
      status := "No Budget Set" }

/-- Modelled from the spec: `models.budget.get_budget_vs_actual` is not
under src/ (src/app.py only imports it).  Spec contract
`reconcile(plans, actuals, month, year) -> ComparisonRow[]`: one row for
every (category, subcategory) appearing in either the plan set or the
actual-spend set of the period, rows with plan and actual both zero
omitted. -/
def get_budget_vs_actual (user_id : Nat) (month year : Int) (db : DB) :
    List ComparisonRow :=
  let plans := db.budget_plans.filter (fun r =>
      r.user_id = user_id ∧ r.month = month ∧ r.year = year)
  let actuals := db.expenses.filter (fun r =>
      r.user_id = user_id ∧ r.expense_date.month = month ∧
      r.expense_date.year = year)
  let keys := (plans.map (fun r => (r.category, r.subcategory)) ++
      actuals.map (fun r => (r.category, r.subcategory))).dedup
  keys.filterMap (fun k =>
    let planned := (plans.filter (fun r =>
        r.category = k.1 ∧ r.subcategory = k.2)).foldl
        (fun a r => a + r.planned_amount) 0
    let actual := (actuals.filter (fun r =>
        r.category = k.1 ∧ r.subcategory = k.2)).foldl
        (fun a r => a + r.amount) 0
    if planned = 0 ∧ actual = 0 then none
    else some (mkComparisonRow k.1 k.2 planned actual))

/-! ## Database operation sequences

The write operations of the system, as a transition system over `DB`: the
operations translated above plus the raw
`INSERT INTO budget_plans` statement, whose `UNIQUE` constraint sqlite
enforces by raising `IntegrityError` (the statement then has no effect). -/

/-- A plain `INSERT INTO budget_plans`: fails on the
`UNIQUE(user_id, category, subcategory, month, year)` constraint of the
schema in src/config/database.py, lines 47-60. -/
def insertBudgetPlan (db : DB) (user_id : Nat) (category subcategory : String)
    (planned_amount : ℚ) (month year : Int) : Except PyErr DB :=
  let row : BudgetPlanRow :=
    { id := db.nextPlanId, user_id := user_id, category := category,
      subcategory := subcategory, planned_amount := planned_amount,
      month := month, year := year }
  if db.budget_plans.any (fun r => planKey r = planKey row) then
    .error (.uniqueViolation
      "budget_plans.user_id, budget_plans.category, budget_plans.subcategory, budget_plans.month, budget_plans.year")
  else
    .ok { db with budget_plans := db.budget_plans ++ [row],
                  nextPlanId := db.nextPlanId + 1 }

/-- One top-level write operation against the database. -/
inductive DBOp where
  | register (salt username password : String) (email : Option String)
      (now : Nat)
  | login (username password : String) (now : Nat)
  | addExpense (user_id : Nat) (category subcategory : String) (amount : ℚ)
      (d : PyDate) (description tags : String)
  | addIncome (user_id : Nat) (source : String) (amount : ℚ) (d : PyDate)
      (description : String)
  | setBudget (user_id : Nat) (category subcategory : String)
      (planned_amount : ℚ) (month year : Int)
  | insertPlanRaw (user_id : Nat) (category subcategory : String)
      (planned_amount : ℚ) (month year : Int)
  | restore (user_id : Nat) (parsed : Except String ParsedBackup)

/-- The state reached after one operation (a raw insert that raises leaves
the state unchanged). -/
def runOp (op : DBOp) (db : DB) : DB :=
  match op with
  | .register salt u p e n => (register_user salt u p e n db).2
  | .login u p n => (login_user u p n db).2
  | .addExpense uid c s a d de t => (add_expense uid c s a d de t db).2
  | .addIncome uid src a d de => (add_income uid src a d de db).2
  | .setBudget uid c s a m y => (set_budget uid c s a m y db).2
  | .insertPlanRaw uid c s a m y =>
      match insertBudgetPlan db uid c s a m y with
      | .ok db' => db'
      | .error _ => db
  | .restore uid parsed => (restore_from_backup uid parsed db).2

/-- The state after a sequence of operations. -/
def runOps (ops : List DBOp) (db : DB) : DB :=
  ops.foldl (fun d op => runOp op d) db

/-- The uniqueness invariant of the `budget_plans` table: no two rows agree
on (user_id, category, subcategory, month, year). -/
def planKeysUnique (db : DB) : Prop :=
  db.budget_plans.Pairwise (fun a b => planKey a ≠ planKey b)

/-! ## Helper lemmas -/

/-- A string starting with a nonempty literal is nonempty. -/
lemma append_ne_empty_left (a b : String) (ha : a ≠ "") : a ++ b ≠ "" := by
  intro h
  apply ha
  have hd := congrArg String.data h
  rw [String.data_append] at hd
  rcases List.append_eq_nil.mp hd with ⟨h1, _⟩
  cases a
  simp only at h1
  simp [h1]

/-- Folding a step function preserves any invariant each step preserves. -/
lemma foldl_preserve {α σ : Type} (P : σ → Prop) (f : σ → α → σ)
    (hf : ∀ s a, P s → P (f s a)) :
    ∀ (l : List α) (s : σ), P s → P (l.foldl f s) := by
  intro l
  induction l with
  | nil => intro s h; exact h
  | cons a l ih => intro s h; exact ih (f s a) (hf s a h)

/-- A projection of the state that every step leaves unchanged is unchanged
by the whole fold. -/
lemma foldl_proj_const {α γ : Type} (f : Nat × DB → α → Nat × DB) (g : DB → γ)
    (hf : ∀ acc a, g (f acc a).2 = g acc.2) :
    ∀ (l : List α) (acc : Nat × DB), g ((l.foldl f acc).2) = g acc.2 := by
  intro l
  induction l with
  | nil => intro acc; rfl
  | cons a l ih => intro acc; rw [List.foldl_cons, ih, hf]

/-! ## Claim theorems -/

/-- C7: the taxonomy is a total, consistent configuration:
`get_all_categories()` returns exactly the keys of `BUDGET_CATEGORIES`;
every category has a non-empty subcategory list and an entry in both
`CATEGORY_COLORS` and `CATEGORY_ICONS`; `get_subcategories` of any
non-category string is the empty list; and `INCOME_CATEGORIES` is a
non-empty flat list. -/
theorem C7_taxonomy_total_consistent :
    get_all_categories = BUDGET_CATEGORIES.map Prod.fst ∧
    (∀ c ∈ get_all_categories,
      get_subcategories c ≠ [] ∧
      (dictGet CATEGORY_COLORS c).isSome ∧
      (dictGet CATEGORY_ICONS c).isSome) ∧
    (∀ c : String, c ∉ get_all_categories → get_subcategories c = []) ∧
    INCOME_CATEGORIES ≠ [] := by
  refine ⟨rfl, by decide, ?_, by decide⟩
  intro c hc
  unfold get_subcategories
  rw [List.find?_eq_none.mpr]
  · rfl
  · intro kv hkv
    simp only [decide_eq_true_eq]
    intro heq
    exact hc (heq ▸ List.mem_map_of_mem Prod.fst hkv)

/-- C7 witness: `"Groceries"` is a subcategory, not a category, so its
subcategory lookup is empty. -/
theorem C7_witness : get_subcategories "Groceries" = [] :=
  C7_taxonomy_total_consistent.2.2.1 "Groceries" (by decide)

/-- C9: the two failure branches of `login_user` — unknown username, and
known username with failing password verification — return identical
results, with `success = false` and the message
`"Invalid username or password"`, so the caller cannot tell whether the
username exists. -/
theorem C9_login_failures_indistinguishable :
    ∀ (db : DB) (u1 p1 u2 p2 : String) (n1 n2 : Nat) (r : UserRow),
      db.users.find? (fun u => u.username = u1) = none →
      db.users.find? (fun u => u.username = u2) = some r →
      verify_password p2 r.password_hash = false →
      (login_user u1 p1 n1 db).1 = (login_user u2 p2 n2 db).1 ∧
      (login_user u1 p1 n1 db).1.success = false ∧
      (login_user u1 p1 n1 db).1.message = "Invalid username or password" := by
  intro db u1 p1 u2 p2 n1 n2 r h1 h2 hv
  unfold login_user
  rw [h1, h2]
  simp [hv]

/-- A one-user database used by concrete witnesses: `alice` registered with
password `secret1` and salt `ab`. -/
def dbAlice : DB :=
  (register_user "ab" "alice" "secret1" none 0 init_database).2

/-- C9 witness: in `dbAlice`, logging in as the absent `bob` and logging in
as `alice` with the wrong password produce the identical failure dict. -/
theorem C9_witness :
    (login_user "bob" "whatever" 5 dbAlice).1 =
      (login_user "alice" "wrongpw" 7 dbAlice).1 ∧
    (login_user "bob" "whatever" 5 dbAlice).1.success = false ∧
    (login_user "bob" "whatever" 5 dbAlice).1.message =
      "Invalid username or password" :=
  C9_login_failures_indistinguishable dbAlice "bob" "whatever" "alice"
    "wrongpw" 5 7
    { id := 1, username := "alice",
      password_hash := "ab:" ++ sha256hex "secret1ab", email := none,
      created_at := 0, last_login := none }
    (by rfl) (by rfl) (by rfl)

/-- C10: `register_user` validates before mutating: a username shorter than
3 characters, or a password shorter than 6, yields the explanatory failure
dict with the database state returned unchanged and no insert attempted;
an existing username yields `"Username already exists"` with the state
unchanged. -/
theorem C10_register_validates_before_mutating :
    ∀ (salt u p : String) (e : Option String) (n : Nat) (db : DB),
      (u.length < 3 →
        register_user salt u p e n db =
          ({ success := false,
             message := "Username must be at least 3 characters long" }, db)) ∧
      (¬ u.length < 3 → p.length < 6 →
        register_user salt u p e n db =
          ({ success := false,
             message := "Password must be at least 6 characters long" }, db)) ∧
      (¬ u.length < 3 → ¬ p.length < 6 → (∃ r ∈ db.users, r.username = u) →
        register_user salt u p e n db =
          ({ success := false, message := "Username already exists" }, db)) := by
  intro salt u p e n db
  refine ⟨?_, ?_, ?_⟩
  · intro h
    unfold register_user
    rw [if_pos h]
  · intro h3 h6
    unfold register_user
    rw [if_neg h3, if_pos h6]
  · intro h3 h6 hex
    unfold register_user
    rw [if_neg h3, if_neg h6]
    have hins : insertUser db u (salt ++ ":" ++ (hash_password p salt).1) e n =
        .error (.uniqueViolation "users.username") := by
      unfold insertUser
      rw [if_pos]
      rw [List.any_eq_true]
      obtain ⟨r, hr, hru⟩ := hex
      exact ⟨r, hr, by simp [hru]⟩
    simp [hins, registerErrorResult, PyErr.mentionsUniqueConstraint]

/-- C10 witness: in `dbAlice`, a short username, a short password, and the
taken username `alice` are each rejected with the database unchanged. -/
theorem C10_witness :
    register_user "cd" "al" "longenough" none 1 dbAlice =
      ({ success := false,
         message := "Username must be at least 3 characters long" },
       dbAlice) ∧
    register_user "cd" "bob" "short" none 1 dbAlice =
      ({ success := false,
         message := "Password must be at least 6 characters long" },
       dbAlice) ∧
    register_user "cd" "alice" "longenough" none 1 dbAlice =
      ({ success := false, message := "Username already exists" }, dbAlice) :=
  ⟨(C10_register_validates_before_mutating "cd" "al" "longenough" none 1
      dbAlice).1 (by decide),
   (C10_register_validates_before_mutating "cd" "bob" "short" none 1
      dbAlice).2.1 (by decide) (by decide),
   (C10_register_validates_before_mutating "cd" "alice" "longenough" none 1
      dbAlice).2.2 (by decide) (by decide)
     ⟨{ id := 1, username := "alice",
        password_hash := "ab:" ++ sha256hex "secret1ab", email := none,
        created_at := 0, last_login := none }, by decide⟩⟩

/-! ### C1 — reconciliation rows -/

lemma mkComparisonRow_planned (c s : String) (p a : ℚ) :
    (mkComparisonRow c s p a).planned_amount = p := by
  unfold mkComparisonRow; split <;> rfl

lemma mkComparisonRow_actual (c s : String) (p a : ℚ) :
    (mkComparisonRow c s p a).actual_amount = a := by
  unfold mkComparisonRow; split <;> rfl

lemma mkComparisonRow_category (c s : String) (p a : ℚ) :
    (mkComparisonRow c s p a).category = c := by
  unfold mkComparisonRow; split <;> rfl

lemma mkComparisonRow_subcategory (c s : String) (p a : ℚ) :
    (mkComparisonRow c s p a).subcategory = s := by
  unfold mkComparisonRow; split <;> rfl

lemma mkComparisonRow_pos (c s : String) (p a : ℚ) (h : 0 < p) :
    (mkComparisonRow c s p a).percentage = some (roundTo1 (a / p * 100)) ∧
    (mkComparisonRow c s p a).status = rowStatus (roundTo1 (a / p * 100)) := by
  unfold mkComparisonRow
  rw [if_pos h]
  exact ⟨rfl, rfl⟩

/-- Every reconciliation row is `mkComparisonRow` of its own fields. -/
lemma mem_get_budget_vs_actual (uid : Nat) (m y : Int) (db : DB)
    (row : ComparisonRow) (h : row ∈ get_budget_vs_actual uid m y db) :
    row = mkComparisonRow row.category row.subcategory row.planned_amount
      row.actual_amount := by
  unfold get_budget_vs_actual at h
  rw [List.mem_filterMap] at h
  obtain ⟨k, _hk, heq⟩ := h
  dsimp only at heq
  split at heq
  · exact absurd heq (by simp)
  · have hrow := Option.some.inj heq
    rw [← hrow, mkComparisonRow_category, mkComparisonRow_subcategory,
        mkComparisonRow_planned, mkComparisonRow_actual]

/-- C1: for every reconciliation row with `planned_amount > 0`, the
percentage is `round(actual/planned*100, 1)` and the status is determined
exactly by the threshold bands (`< 90` Under Budget, `90 ≤ · ≤ 110` On
Track, `> 110` Over Budget), in particular at the boundary percentages
89.9, 90.0, 110.0 and 110.1. -/
theorem C1_reconciliation_percentage_status :
    (∀ (uid : Nat) (m y : Int) (db : DB) (row : ComparisonRow),
       row ∈ get_budget_vs_actual uid m y db → 0 < row.planned_amount →
       row.percentage =
         some (roundTo1 (row.actual_amount / row.planned_amount * 100)) ∧
       row.status =
         rowStatus (roundTo1 (row.actual_amount / row.planned_amount * 100))) ∧
    (∀ q : ℚ,
       (rowStatus q = "Under Budget" ↔ q < 90) ∧
       (rowStatus q = "On Track" ↔ 90 ≤ q ∧ q ≤ 110) ∧
       (rowStatus q = "Over Budget" ↔ 110 < q)) ∧
    rowStatus (899 / 10) = "Under Budget" ∧
    rowStatus 90 = "On Track" ∧
    rowStatus 110 = "On Track" ∧
    rowStatus (1101 / 10) = "Over Budget" := by
  refine ⟨?_, ?_, by unfold rowStatus; norm_num, by unfold rowStatus; norm_num,
    by unfold rowStatus; norm_num, by unfold rowStatus; norm_num⟩
  · intro uid m y db row hmem hpos
    have hrw := mem_get_budget_vs_actual uid m y db row hmem
    obtain ⟨h1, h2⟩ := mkComparisonRow_pos row.category row.subcategory
      row.planned_amount row.actual_amount hpos
    exact ⟨(congrArg ComparisonRow.percentage hrw).trans h1,
           (congrArg ComparisonRow.status hrw).trans h2⟩
  · intro q
    unfold rowStatus
    split_ifs with h1 h2 <;> refine ⟨?_, ?_, ?_⟩ <;>
      constructor <;> intro hx <;> first
        | rfl
        | (exact absurd hx (by decide))
        | (exact absurd hx (by simp_all; linarith))
        | linarith
        | (constructor <;> linarith)

/-- The concrete database of the spec scenario: Housing/Electricity planned
at 300 with 330 spent in 2026-02. -/
def dbHousing : DB := { init_database with
  budget_plans := [{ id := 1, user_id := 1, category := "Housing",
                     subcategory := "Electricity", planned_amount := 300,
                     month := 2, year := 2026 }],
  expenses := [{ id := 1, user_id := 1, category := "Housing",
                 subcategory := "Electricity", amount := 330,
                 description := "", expense_date := ⟨2026, 2, 10⟩,
                 tags := "" }] }

/-- C1 witness: the 300-planned / 330-actual row of `dbHousing` carries the
rounded percentage and the banded status. -/
theorem C1_witness :
    (mkComparisonRow "Housing" "Electricity" 300 330).percentage =
      some (roundTo1 ((330 : ℚ) / 300 * 100)) ∧
    (mkComparisonRow "Housing" "Electricity" 300 330).status =
      rowStatus (roundTo1 ((330 : ℚ) / 300 * 100)) := by
  have hmem : mkComparisonRow "Housing" "Electricity" 300 330 ∈
      get_budget_vs_actual 1 2 2026 dbHousing := by
    rw [show get_budget_vs_actual 1 2 2026 dbHousing =
        [mkComparisonRow "Housing" "Electricity" 300 330] from by
      simp [get_budget_vs_actual, dbHousing, init_database, List.dedup]]
    exact List.mem_singleton.mpr rfl
  have h := C1_reconciliation_percentage_status.1 1 2 2026 dbHousing
    (mkComparisonRow "Housing" "Electricity" 300 330) hmem
    (by rw [mkComparisonRow_planned]; norm_num)
  rwa [mkComparisonRow_planned, mkComparisonRow_actual] at h

/-! ### C2 — create_full_backup / export_backup_json crash -/

/-- C2 (refuted — code bug): for a registered user (who therefore has a
`user_preferences` row), `create_full_backup` does not return a backup
dictionary; the double `cursor.fetchone()` on line 89 of
src/utils/data_export.py reaches `dict(None)` and raises a `TypeError`,
which `export_backup_json` propagates.  The registration is shown to
succeed and to create exactly one preferences row for user 1. -/
theorem C2_create_full_backup_raises :
    (register_user "ab" "alice" "secret1" none 0 init_database).1.success =
      true ∧
    dbAlice.user_preferences.length = 1 ∧
    (dbAlice.user_preferences.filter (fun p => p.user_id = 1)).length = 1 ∧
    create_full_backup 1 "2026-10-12" dbAlice =
      .error (.typeError
        "cannot convert dictionary update sequence element: dict(None)") ∧
    export_backup_json 1 "2026-10-12" dbAlice =
      .error (.typeError
        "cannot convert dictionary update sequence element: dict(None)") :=
  ⟨rfl, rfl, rfl, rfl, rfl⟩

/-- C2 contrast: for a user id with no `user_preferences` row the falsy
branch is taken and a backup value is returned, showing the crash is
exactly the has-a-preferences-row case the claim includes. -/
theorem C2_no_prefs_returns :
    (create_full_backup 2 "2026-10-12" dbAlice).isOk = true := rfl

/-! ### C6 — savings rate -/

/-- C6: whenever the monthly balance has positive income, its
`savings_rate` equals `(income - expenses) / income * 100`. -/
theorem C6_savings_rate :
    ∀ (uid : Nat) (m y : Int) (db : DB),
      0 < (get_monthly_balance uid m y db).income →
      (get_monthly_balance uid m y db).savings_rate =
        ((get_monthly_balance uid m y db).income -
          (get_monthly_balance uid m y db).expenses) /
          (get_monthly_balance uid m y db).income * 100 := by
  intro uid m y db h
  unfold get_monthly_balance at h ⊢
  dsimp only at h ⊢
  rw [if_pos h]

/-- A database with one 200 income entry and one 50 expense in 2026-01. -/
def dbBalance : DB := { init_database with
  income := [{ id := 1, user_id := 1, source := "💼 Salary", amount := 200,
               income_date := ⟨2026, 1, 5⟩, description := "" }],
  expenses := [{ id := 1, user_id := 1, category := "Food",
                 subcategory := "Groceries", amount := 50, description := "",
                 expense_date := ⟨2026, 1, 10⟩, tags := "" }] }

/-- C6 witness: the savings-rate identity at the concrete `dbBalance`. -/
theorem C6_witness :
    (get_monthly_balance 1 1 2026 dbBalance).savings_rate =
      ((get_monthly_balance 1 1 2026 dbBalance).income -
        (get_monthly_balance 1 1 2026 dbBalance).expenses) /
        (get_monthly_balance 1 1 2026 dbBalance).income * 100 :=
  C6_savings_rate 1 1 2026 dbBalance
    (by simp [get_monthly_balance, dbBalance, init_database])

/-! ### C8 — password verification round-trip -/

lemma splitChar_ne_nil (sep : Char) (cs : List Char) :
    splitChar sep cs ≠ [] := by
  induction cs with
  | nil => simp [splitChar]
  | cons c rest ih =>
    unfold splitChar
    dsimp only
    split
    · simp
    · cases h : splitChar sep rest with
      | nil => exact absurd h ih
      | cons hd tl => simp [h]

/-- A separator-free list splits into itself alone. -/
lemma splitChar_no_sep (sep : Char) (cs : List Char) (h : sep ∉ cs) :
    splitChar sep cs = [cs] := by
  induction cs with
  | nil => rfl
  | cons c rest ih =>
    have hc : c ≠ sep := fun e => h (e ▸ List.mem_cons_self c rest)
    have hr : sep ∉ rest := fun e => h (List.mem_cons_of_mem c e)
    unfold splitChar
    dsimp only
    rw [if_neg (fun e => hc e), ih hr]

/-- Splitting at the first separator occurrence peels off the prefix. -/
lemma splitChar_mid (sep : Char) (a b : List Char) (ha : sep ∉ a) :
    splitChar sep (a ++ sep :: b) = a :: splitChar sep b := by
  induction a with
  | nil => simp [splitChar]
  | cons c rest ih =>
    have hc : c ≠ sep := fun e => ha (e ▸ List.mem_cons_self c rest)
    have hr : sep ∉ rest := fun e => ha (List.mem_cons_of_mem c e)
    rw [List.cons_append]
    conv_lhs => rw [splitChar]
    rw [ih hr]
    simp [hc]

lemma hexDigitChar_ne_colon (n : Nat) (h : n < 16) : hexDigitChar n ≠ ':' := by
  interval_cases n <;> decide

lemma hexRepAux_no_colon (fuel n : Nat) : ':' ∉ hexRepAux fuel n := by
  induction fuel generalizing n with
  | zero => simp [hexRepAux]
  | succ fuel ih =>
    unfold hexRepAux
    split
    · intro hmem
      simp only [List.mem_singleton] at hmem
      exact hexDigitChar_ne_colon n (by omega) hmem.symm
    · intro hmem
      rw [List.mem_append] at hmem
      rcases hmem with hm | hm
      · exact ih (n / 16) hm
      · simp only [List.mem_singleton] at hm
        exact hexDigitChar_ne_colon (n % 16) (by omega) hm.symm

/-- The modelled hex digest never contains a colon. -/
lemma sha256hex_no_colon (s : String) : ':' ∉ (sha256hex s).data :=
  hexRepAux_no_colon _ _

/-- C8 counterexample: the claim quantifies over every salt, but a salt
containing `':'` breaks the round-trip — `stored` then has two colons, the
two-target unpacking of `split(':')` raises `ValueError`, and
`verify_password` returns `False` instead of the claimed `True`. -/
theorem C8_counterexample :
    verify_password "pw" ("a:b" ++ ":" ++ (hash_password "pw" "a:b").1) =
      false := by decide

/-- C8 (amended): for every password and every colon-free salt (as the hex
salts `register_user` draws always are), verification succeeds on the
stored format `salt + ":" + hash`; and every stored string that does not
split into exactly two pieces around `':'` yields `False`, not an
exception. -/
theorem C8_verify_roundtrip :
    (∀ (p s : String), ':' ∉ s.data →
       verify_password p (s ++ ":" ++ (hash_password p s).1) = true) ∧
    (∀ (p stored : String), (pySplit ':' stored).length ≠ 2 →
       verify_password p stored = false) := by
  constructor
  · intro p s hs
    have hdata : (s ++ ":" ++ (hash_password p s).1).data =
        s.data ++ ':' :: (sha256hex (p ++ s)).data := by
      rw [String.data_append, String.data_append, List.append_assoc]
      rfl
    have hhash : ':' ∉ (sha256hex (p ++ s)).data := sha256hex_no_colon _
    unfold verify_password
    rw [show pySplit ':' (s ++ ":" ++ (hash_password p s).1) =
        [s, sha256hex (p ++ s)] from ?_]
    · simp [hash_password]
    · unfold pySplit
      rw [hdata, splitChar_mid ':' s.data _ hs, splitChar_no_sep ':' _ hhash]
      simp
  · intro p stored hlen
    unfold verify_password
    split
    · rename_i salt hv heq
      rw [heq] at hlen
      simp at hlen
    · rfl

/-- C8 witness: the round-trip at the colon-free salt `"ab"`, and `False`
for a stored string with no colon at all. -/
theorem C8_witness :
    verify_password "pw" ("ab" ++ ":" ++ (hash_password "pw" "ab").1) =
      true ∧
    verify_password "pw" "nocolonhere" = false :=
  ⟨C8_verify_roundtrip.1 "pw" "ab" (by decide),
   C8_verify_roundtrip.2 "pw" "nocolonhere" (by decide)⟩

/-! ### C4 — structured results, no escaping exception -/

/-- C4: `register_user`, `login_user` and `restore_from_backup` always
return a structured result for every input — in this embedding the three
functions are total functions into result records that carry a Boolean
`success` and a `message` string on every path (the Python `try/except`
bodies are translated into the branches above, so no modelled exception
escapes), and the message is never empty. -/
theorem C4_structured_results :
    (∀ (salt u p : String) (e : Option String) (n : Nat) (db : DB),
       (register_user salt u p e n db).1.message ≠ "") ∧
    (∀ (u p : String) (n : Nat) (db : DB),
       (login_user u p n db).1.message ≠ "") ∧
    (∀ (uid : Nat) (parsed : Except String ParsedBackup) (db : DB),
       (restore_from_backup uid parsed db).1.message ≠ "") := by
  refine ⟨?_, ?_, ?_⟩
  · intro salt u p e n db
    unfold register_user
    split
    · simp
    · split
      · simp
      · dsimp only
        split
        · unfold registerErrorResult
          split
          · simp
          · exact append_ne_empty_left _ _ (by decide)
        · split
          · unfold registerErrorResult
            split
            · simp
            · exact append_ne_empty_left _ _ (by decide)
          · simp
  · intro u p n db
    unfold login_user
    split
    · simp
    · split
      · simp
      · simp
  · intro uid parsed db
    cases parsed with
    | error e => exact append_ne_empty_left _ _ (by decide)
    | ok backup =>
        exact append_ne_empty_left _ _ (append_ne_empty_left _ _
          (append_ne_empty_left _ _ (append_ne_empty_left _ _
            (append_ne_empty_left _ _ (append_ne_empty_left _ _
              (by decide))))))

/-- C4 witness: non-empty structured messages at concrete inputs, including
a failing restore input. -/
theorem C4_witness :
    (register_user "ab" "al" "x" none 0 init_database).1.message ≠ "" ∧
    (login_user "alice" "pw" 0 init_database).1.message ≠ "" ∧
    (restore_from_backup 1 (.error "Expecting value: line 1 column 1")
      init_database).1.message ≠ "" :=
  ⟨C4_structured_results.1 "ab" "al" "x" none 0 init_database,
   C4_structured_results.2.1 "alice" "pw" 0 init_database,
   C4_structured_results.2.2 1 (.error "Expecting value: line 1 column 1")
     init_database⟩

/-! ### C3 — restore validates against the taxonomy -/

/-- The acceptance condition of `add_expense` for a backup expense entry. -/
def expenseEntryOK (e : BackupExpenseEntry) : Bool :=
  validPair e.category e.subcategory && decide (0 < e.amount)

/-- The acceptance condition of `add_income` for a backup income entry. -/
def incomeEntryOK (i : BackupIncomeEntry) : Bool := decide (0 < i.amount)

/-- The acceptance condition of `set_budget` for a backup budget entry. -/
def budgetEntryOK (b : BackupBudgetEntry) : Bool :=
  validPair b.category b.subcategory && decide (0 ≤ b.planned_amount) &&
    decide (1 ≤ b.month) && decide (b.month ≤ 12)

lemma add_expense_success (uid : Nat) (c s : String) (a : ℚ) (d : PyDate)
    (de t : String) (db : DB) :
    (add_expense uid c s a d de t db).1.success =
      (validPair c s && decide (0 < a)) := by
  unfold add_expense
  split_ifs with h1 h2 <;> simp_all [not_lt, not_le]

lemma add_income_success (uid : Nat) (src : String) (a : ℚ) (d : PyDate)
    (de : String) (db : DB) :
    (add_income uid src a d de db).1.success = decide (0 < a) := by
  unfold add_income
  split_ifs with h1 <;> simp_all [not_lt, not_le]

lemma set_budget_success (uid : Nat) (c s : String) (a : ℚ) (m y : Int)
    (db : DB) :
    (set_budget uid c s a m y db).1.success =
      (validPair c s && decide (0 ≤ a) && decide (1 ≤ m) &&
        decide (m ≤ 12)) := by
  unfold set_budget
  split_ifs with h1 h2 <;> simp_all [not_lt, not_le]
  intro ha hm
  rcases h2 with h | h | h
  · exact absurd ha (not_le.mpr h)
  · omega
  · exact h

lemma expenseStep_count (uid : Nat) (acc : Nat × DB) (e : BackupExpenseEntry) :
    (expenseStep uid acc e).1 =
      if expenseEntryOK e then acc.1 + 1 else acc.1 := by
  show (if (add_expense uid e.category e.subcategory e.amount e.expense_date
      e.description e.tags acc.2).1.success then acc.1 + 1 else acc.1) = _
  rw [add_expense_success]
  rfl

lemma incomeStep_count (uid : Nat) (acc : Nat × DB) (i : BackupIncomeEntry) :
    (incomeStep uid acc i).1 =
      if incomeEntryOK i then acc.1 + 1 else acc.1 := by
  show (if (add_income uid i.source i.amount i.income_date i.description
      acc.2).1.success then acc.1 + 1 else acc.1) = _
  rw [add_income_success]
  rfl

lemma budgetStep_count (uid : Nat) (acc : Nat × DB) (b : BackupBudgetEntry) :
    (budgetStep uid acc b).1 =
      if budgetEntryOK b then acc.1 + 1 else acc.1 := by
  show (if (set_budget uid b.category b.subcategory b.planned_amount b.month
      b.year acc.2).1.success then acc.1 + 1 else acc.1) = _
  rw [set_budget_success]
  rfl

/-- The counter of a restore loop counts exactly the accepted entries. -/
lemma foldl_count {α : Type} (f : Nat × DB → α → Nat × DB) (ok : α → Bool)
    (hf : ∀ acc a, (f acc a).1 = if ok a then acc.1 + 1 else acc.1) :
    ∀ (l : List α) (acc : Nat × DB),
      (l.foldl f acc).1 = acc.1 + (l.filter ok).length := by
  intro l
  induction l with
  | nil => intro acc; simp
  | cons a l ih =>
    intro acc
    rw [List.foldl_cons, ih]
    by_cases h : ok a
    · rw [List.filter_cons_of_pos h, hf]
      rw [if_pos h]
      simp
      omega
    · rw [List.filter_cons_of_neg (by simp [h]), hf, if_neg h]

lemma add_expense_plans (uid : Nat) (c s : String) (a : ℚ) (d : PyDate)
    (de t : String) (db : DB) :
    ((add_expense uid c s a d de t db).2).budget_plans = db.budget_plans := by
  unfold add_expense
  split_ifs <;> rfl

lemma add_income_plans (uid : Nat) (src : String) (a : ℚ) (d : PyDate)
    (de : String) (db : DB) :
    ((add_income uid src a d de db).2).budget_plans = db.budget_plans := by
  unfold add_income
  split_ifs <;> rfl

lemma add_income_expenses (uid : Nat) (src : String) (a : ℚ) (d : PyDate)
    (de : String) (db : DB) :
    ((add_income uid src a d de db).2).expenses = db.expenses := by
  unfold add_income
  split_ifs <;> rfl

lemma set_budget_expenses (uid : Nat) (c s : String) (a : ℚ) (m y : Int)
    (db : DB) :
    ((set_budget uid c s a m y db).2).expenses = db.expenses := by
  unfold set_budget
  split_ifs <;> rfl

lemma incomeStep_expenses (uid : Nat) (acc : Nat × DB)
    (i : BackupIncomeEntry) :
    ((incomeStep uid acc i).2).expenses = acc.2.expenses :=
  add_income_expenses uid i.source i.amount i.income_date i.description acc.2

lemma budgetStep_expenses (uid : Nat) (acc : Nat × DB)
    (b : BackupBudgetEntry) :
    ((budgetStep uid acc b).2).expenses = acc.2.expenses :=
  set_budget_expenses uid b.category b.subcategory b.planned_amount b.month
    b.year acc.2

lemma expenseStep_plans (uid : Nat) (acc : Nat × DB)
    (e : BackupExpenseEntry) :
    ((expenseStep uid acc e).2).budget_plans = acc.2.budget_plans :=
  add_expense_plans uid e.category e.subcategory e.amount e.expense_date
    e.description e.tags acc.2

lemma incomeStep_plans (uid : Nat) (acc : Nat × DB) (i : BackupIncomeEntry) :
    ((incomeStep uid acc i).2).budget_plans = acc.2.budget_plans :=
  add_income_plans uid i.source i.amount i.income_date i.description acc.2

/-- Invariant: every expense row is an original one or has a valid
(category, subcategory) pair; preserved by one expense-restore step. -/
lemma expenseStep_mem_inv (uid : Nat) (E0 : List ExpenseRow)
    (acc : Nat × DB) (e : BackupExpenseEntry)
    (h : ∀ r ∈ acc.2.expenses,
      r ∈ E0 ∨ validPair r.category r.subcategory = true) :
    ∀ r ∈ ((expenseStep uid acc e).2).expenses,
      r ∈ E0 ∨ validPair r.category r.subcategory = true := by
  show ∀ r ∈ ((add_expense uid e.category e.subcategory e.amount
      e.expense_date e.description e.tags acc.2).2).expenses, _
  unfold add_expense
  split_ifs with h1 h2 <;> try exact h
  intro r hr
  dsimp only at hr
  rw [List.mem_append] at hr
  rcases hr with hr | hr
  · exact h r hr
  · simp only [List.mem_singleton] at hr
    subst hr
    right
    simpa using h1

/-- The same invariant for budget-plan rows, preserved by one
budget-restore step. -/
lemma budgetStep_mem_inv (uid : Nat) (B0 : List BudgetPlanRow)
    (acc : Nat × DB) (b : BackupBudgetEntry)
    (h : ∀ r ∈ acc.2.budget_plans,
      r ∈ B0 ∨ validPair r.category r.subcategory = true) :
    ∀ r ∈ ((budgetStep uid acc b).2).budget_plans,
      r ∈ B0 ∨ validPair r.category r.subcategory = true := by
  show ∀ r ∈ ((set_budget uid b.category b.subcategory b.planned_amount
      b.month b.year acc.2).2).budget_plans, _
  unfold set_budget
  split_ifs with h1 h2 <;> try exact h
  intro r hr
  dsimp only at hr
  rw [List.mem_append] at hr
  rcases hr with hr | hr
  · exact h r (List.mem_of_mem_filter hr)
  · simp only [List.mem_singleton] at hr
    subst hr
    right
    simpa using h1

/-- C3: `restore_from_backup` counts an expense or budget entry as restored
exactly when the record store accepts it — in particular only entries whose
(category, subcategory) pair is in `BUDGET_CATEGORIES` — and every row it
inserts (any row of the final state that is not an original row) has a pair
inside the taxonomy. -/
theorem C3_restore_validates_taxonomy :
    ∀ (uid : Nat) (backup : ParsedBackup) (db : DB),
      (∀ r ∈ ((restore_from_backup uid (.ok backup) db).2).expenses,
        r ∈ db.expenses ∨ validPair r.category r.subcategory = true) ∧
      (∀ r ∈ ((restore_from_backup uid (.ok backup) db).2).budget_plans,
        r ∈ db.budget_plans ∨ validPair r.category r.subcategory = true) ∧
      (restore_from_backup uid (.ok backup) db).1.details =
        some ((backup.expenses.filter expenseEntryOK).length,
              (backup.income.filter incomeEntryOK).length,
              (backup.budgets.filter budgetEntryOK).length) := by
  intro uid backup db
  have hres2 : (restore_from_backup uid (.ok backup) db).2 =
      (backup.budgets.foldl (budgetStep uid) (0,
        (backup.income.foldl (incomeStep uid) (0,
          (backup.expenses.foldl (expenseStep uid) (0, db)).2)).2)).2 := rfl
  have hdet : (restore_from_backup uid (.ok backup) db).1.details =
      some ((backup.expenses.foldl (expenseStep uid) (0, db)).1,
            (backup.income.foldl (incomeStep uid) (0,
              (backup.expenses.foldl (expenseStep uid) (0, db)).2)).1,
            (backup.budgets.foldl (budgetStep uid) (0,
              (backup.income.foldl (incomeStep uid) (0,
                (backup.expenses.foldl (expenseStep uid) (0, db)).2)).2)).1)
      := rfl
  refine ⟨?_, ?_, ?_⟩
  · rw [hres2,
      foldl_proj_const (budgetStep uid) (fun d => d.expenses)
        (budgetStep_expenses uid) backup.budgets _,
      foldl_proj_const (incomeStep uid) (fun d => d.expenses)
        (incomeStep_expenses uid) backup.income _]
    exact foldl_preserve
      (fun acc => ∀ r ∈ acc.2.expenses,
        r ∈ db.expenses ∨ validPair r.category r.subcategory = true)
      (expenseStep uid)
      (fun acc e hinv => expenseStep_mem_inv uid db.expenses acc e hinv)
      backup.expenses (0, db) (fun r hr => Or.inl hr)
  · rw [hres2]
    refine foldl_preserve
      (fun acc => ∀ r ∈ acc.2.budget_plans,
        r ∈ db.budget_plans ∨ validPair r.category r.subcategory = true)
      (budgetStep uid)
      (fun acc b hinv => budgetStep_mem_inv uid db.budget_plans acc b hinv)
      backup.budgets _ ?_
    dsimp only
    rw [foldl_proj_const (incomeStep uid) (fun d => d.budget_plans)
        (incomeStep_plans uid) backup.income _,
      foldl_proj_const (expenseStep uid) (fun d => d.budget_plans)
        (expenseStep_plans uid) backup.expenses _]
    exact fun r hr => Or.inl hr
  · rw [hdet,
      foldl_count (expenseStep uid) expenseEntryOK (expenseStep_count uid)
        backup.expenses _,
      foldl_count (incomeStep uid) incomeEntryOK (incomeStep_count uid)
        backup.income _,
      foldl_count (budgetStep uid) budgetEntryOK (budgetStep_count uid)
        backup.budgets _]
    simp

/-- A parsed backup mixing records inside and outside the taxonomy. -/
def backupSample : ParsedBackup :=
  { expenses := [{ category := "Food", subcategory := "Groceries",
                   amount := 25, expense_date := ⟨2026, 1, 3⟩ },
                 { category := "NotACategory", subcategory := "Nope",
                   amount := 10, expense_date := ⟨2026, 1, 4⟩ }],
    income := [{ source := "💼 Salary", amount := 100,
                 income_date := ⟨2026, 1, 1⟩ }],
    budgets := [{ category := "Food", subcategory := "Groceries",
                  planned_amount := 200, month := 1, year := 2026 },
                { category := "Bogus", subcategory := "X",
                  planned_amount := 5, month := 1, year := 2026 }] }

/-- C3 witness: restoring `backupSample` into an empty database counts only
the taxonomically valid expense and budget (1 of 2 each), and the first
restored expense row is covered by the taxonomy membership disjunction. -/
theorem C3_witness :
    (restore_from_backup 1 (.ok backupSample) init_database).1.details =
      some (1, 1, 1) ∧
    (({ id := 1, user_id := 1, category := "Food",
        subcategory := "Groceries", amount := 25, description := "",
        expense_date := ⟨2026, 1, 3⟩, tags := "" } : ExpenseRow) ∈
          init_database.expenses ∨
      validPair "Food" "Groceries" = true) :=
  ⟨((C3_restore_validates_taxonomy 1 backupSample init_database).2.2).trans
     (by decide),
   (C3_restore_validates_taxonomy 1 backupSample init_database).1
     { id := 1, user_id := 1, category := "Food", subcategory := "Groceries",
       amount := 25, description := "", expense_date := ⟨2026, 1, 3⟩,
       tags := "" }
     (by decide)⟩

/-! ### C5 — budget-plan key uniqueness -/

lemma planKeysUnique_congr {d d' : DB}
    (h : d'.budget_plans = d.budget_plans) (hu : planKeysUnique d) :
    planKeysUnique d' := by
  unfold planKeysUnique at hu ⊢
  rw [h]
  exact hu

lemma set_budget_unique (uid : Nat) (c s : String) (a : ℚ) (m y : Int)
    (db : DB) (h : planKeysUnique db) :
    planKeysUnique (set_budget uid c s a m y db).2 := by
  unfold set_budget
  split_ifs with h1 h2 <;> try exact h
  unfold planKeysUnique at h ⊢
  dsimp only
  rw [List.pairwise_append]
  refine ⟨h.sublist (List.filter_sublist _), by simp, ?_⟩
  intro r hr r' hr'
  simp only [List.mem_singleton] at hr'
  subst hr'
  have hm := List.mem_filter.mp hr
  simpa using hm.2

lemma insertBudgetPlan_ok_unique (db : DB) (uid : Nat) (c s : String)
    (a : ℚ) (m y : Int) (db' : DB)
    (heq : insertBudgetPlan db uid c s a m y = .ok db')
    (h : planKeysUnique db) : planKeysUnique db' := by
  unfold insertBudgetPlan at heq
  dsimp only at heq
  split at heq
  · exact absurd heq (by simp)
  · rename_i hany
    injection heq with heq'
    rw [← heq']
    unfold planKeysUnique at h ⊢
    dsimp only
    rw [List.pairwise_append]
    refine ⟨h, by simp, ?_⟩
    intro r hr r' hr'
    simp only [List.mem_singleton] at hr'
    subst hr'
    intro hk
    exact hany (List.any_eq_true.mpr ⟨r, hr, by simp [hk]⟩)

lemma insertUser_ok_plans (db : DB) (u ph : String) (e : Option String)
    (n : Nat) (uid : Nat) (db' : DB)
    (h : insertUser db u ph e n = .ok (uid, db')) :
    db'.budget_plans = db.budget_plans := by
  unfold insertUser at h
  split at h
  · exact absurd h (by simp)
  · injection h with h'
    rw [Prod.mk.injEq] at h'
    rw [← h'.2]

lemma insertPref_ok_plans (db : DB) (uid : Nat) (db' : DB)
    (h : insertPref db uid = .ok db') :
    db'.budget_plans = db.budget_plans := by
  unfold insertPref at h
  split at h
  · exact absurd h (by simp)
  · injection h with h'
    rw [← h']

lemma register_user_plans (salt u p : String) (e : Option String) (n : Nat)
    (db : DB) :
    ((register_user salt u p e n db).2).budget_plans = db.budget_plans := by
  unfold register_user
  split
  · rfl
  · split
    · rfl
    · dsimp only
      split
      · unfold registerErrorResult
        split <;> rfl
      · rename_i user_id db1 heq
        split
        · unfold registerErrorResult
          split <;> rfl
        · rename_i db2 heq2
          dsimp only
          rw [insertPref_ok_plans db1 user_id db2 heq2,
            insertUser_ok_plans db u _ e n user_id db1 heq]

lemma login_user_plans (u p : String) (n : Nat) (db : DB) :
    ((login_user u p n db).2).budget_plans = db.budget_plans := by
  unfold login_user
  split
  · rfl
  · split <;> rfl

lemma restore_unique (uid : Nat) (parsed : Except String ParsedBackup)
    (db : DB) (h : planKeysUnique db) :
    planKeysUnique ((restore_from_backup uid parsed db).2) := by
  cases parsed with
  | error e => exact h
  | ok backup =>
    have hres2 : (restore_from_backup uid (.ok backup) db).2 =
        (backup.budgets.foldl (budgetStep uid) (0,
          (backup.income.foldl (incomeStep uid) (0,
            (backup.expenses.foldl (expenseStep uid) (0, db)).2)).2)).2 := rfl
    rw [hres2]
    refine foldl_preserve (fun acc => planKeysUnique acc.2)
      (budgetStep uid)
      (fun acc b hb => set_budget_unique uid b.category b.subcategory
        b.planned_amount b.month b.year acc.2 hb)
      backup.budgets _ ?_
    dsimp only
    refine planKeysUnique_congr
      (foldl_proj_const (incomeStep uid) (fun d => d.budget_plans)
        (incomeStep_plans uid) backup.income _) ?_
    refine planKeysUnique_congr
      (foldl_proj_const (expenseStep uid) (fun d => d.budget_plans)
        (expenseStep_plans uid) backup.expenses _) ?_
    exact h

lemma runOp_unique (op : DBOp) (db : DB) (h : planKeysUnique db) :
    planKeysUnique (runOp op db) := by
  cases op with
  | register salt u p e n =>
    exact planKeysUnique_congr (register_user_plans salt u p e n db) h
  | login u p n =>
    exact planKeysUnique_congr (login_user_plans u p n db) h
  | addExpense uid c s a d de t =>
    exact planKeysUnique_congr (add_expense_plans uid c s a d de t db) h
  | addIncome uid src a d de =>
    exact planKeysUnique_congr (add_income_plans uid src a d de db) h
  | setBudget uid c s a m y =>
    exact set_budget_unique uid c s a m y db h
  | insertPlanRaw uid c s a m y =>
    show planKeysUnique (match insertBudgetPlan db uid c s a m y with
      | .ok db' => db' | .error _ => db)
    split
    · rename_i db' heq
      exact insertBudgetPlan_ok_unique db uid c s a m y db' heq h
    · exact h
  | restore uid parsed =>
    exact restore_unique uid parsed db h

/-- C5: starting from the schema `init_database` creates, no sequence of
the modelled write operations ever leaves two `budget_plans` rows agreeing
on (user_id, category, subcategory, month, year): raw inserts are rejected
by the sqlite `UNIQUE` constraint and the storage-layer `set_budget` is a
key upsert, so the invariant is preserved by every step. -/
theorem C5_budget_plan_keys_unique :
    ∀ ops : List DBOp, planKeysUnique (runOps ops init_database) := by
  intro ops
  unfold runOps
  exact foldl_preserve planKeysUnique (fun d op => runOp op d)
    (fun s a hs => runOp_unique a s hs) ops init_database List.Pairwise.nil

/-- C5 witness: the invariant at a concrete operation sequence that upserts
the same key twice and then attempts a raw duplicate insert. -/
theorem C5_witness :
    planKeysUnique (runOps
      [.setBudget 1 "Food" "Groceries" 200 1 2026,
       .setBudget 1 "Food" "Groceries" 250 1 2026,
       .insertPlanRaw 1 "Food" "Groceries" 300 1 2026] init_database) :=
  C5_budget_plan_keys_unique
    [.setBudget 1 "Food" "Groceries" 200 1 2026,
     .setBudget 1 "Food" "Groceries" 250 1 2026,
     .insertPlanRaw 1 "Food" "Groceries" 300 1 2026]

end FamilyBudget
